import Mathlib

/-!
Verification development for a webhook-driven WhatsApp chatbot (Flask +
Twilio + Supabase).  The definitions below are a shallow embedding of
`src/app.py`: the database is a pair of lists (contacts, messages), the
Twilio client is an oracle `String → String → Option String` (returns a
message sid, or `none` when the provider call fails or raises — the helper
`enviar_whatsapp` catches the exception and returns `None`), and Supabase
calls that might raise are driven by explicit failure flags, with the
`try/except` of the webhook modelled by early returns that keep the side
effects performed so far.
-/

namespace Chatbot

/-- Python's substring test `needle in hay`, on lists of characters:
true iff `needle` occurs contiguously in `hay` (the empty needle always
occurs). -/
def containsSubList (needle : List Char) : List Char → Bool
  | [] => needle.isEmpty
  | c :: t => needle.isPrefixOf (c :: t) || containsSubList needle t

/-- Python's `needle in hay` on strings. -/
def strContains (hay needle : String) : Bool :=
  containsSubList needle.data hay.data

/-- Python's `any(x in body for x in toks)`. -/
def anyTokenIn (body : String) (toks : List String) : Bool :=
  toks.any (fun t => strContains body t)

/-- A row of the `WhatsAppContacts` table.  `name` is `Option` because the
column is nullable; `termo_enviado_em` likewise.  Timestamps are abstract
`Nat` instants. -/
structure Contact where
  id : Nat
  phone : String
  name : Option String
  status : String
  automationStatus : String
  lastMessage : String
  lastTimestamp : Nat
  unread : Bool
  termo_enviado_em : Option Nat
  deriving Repr, DecidableEq

/-- A row of the `WhatsAppMessages` table (append-only log). -/
structure Message where
  contactId : Nat
  sender : String
  text : String
  timestamp : Nat
  messageIdFromApi : Option String
  deriving Repr, DecidableEq

/-- The persistent store: the contacts table and the message log. -/
structure Db where
  contacts : List Contact
  messages : List Message
  deriving Repr, DecidableEq

/-- A send attempt performed through `enviar_whatsapp`: destination, body,
and the sid the Twilio oracle returned (`none` = provider failure, which
`enviar_whatsapp` catches). -/
structure Send where
  dest : String
  body : String
  sid : Option String
  deriving Repr, DecidableEq

/-- The form payload Twilio posts to `/webhook`; every field may be absent. -/
structure Payload where
  From : Option String
  ProfileName : Option String
  Body : Option String
  MessageSid : Option String
  deriving Repr, DecidableEq

/-- Which Supabase calls inside the webhook's `try` block raise.  A raised
call performs no write and control jumps to the `except` handler, which
logs and falls through to `return "OK", 200`. -/
structure Failures where
  lookupRaises : Bool
  insertMsgRaises : Bool
  updateLastRaises : Bool
  updateStatusRaises : Bool
  deriving Repr, DecidableEq

/-- No Supabase call raises. -/
def noFail : Failures := ⟨false, false, false, false⟩

/-- Result of one webhook invocation: the store afterwards, the outbound
send attempts in order, and the HTTP response. -/
structure WebhookResult where
  db : Db
  sends : List Send
  httpStatus : Nat
  httpBody : String
  deriving Repr, DecidableEq

/-- Drop leading whitespace characters from a character list. -/
def dropLeadingWs : List Char → List Char
  | [] => []
  | c :: t => if c.isWhitespace then dropLeadingWs t else c :: t

/-- Python `str.strip()`: remove whitespace from both ends (structural
model over the character list). -/
def pyStrip (s : String) : String :=
  ⟨dropLeadingWs ((dropLeadingWs s.data.reverse).reverse)⟩

/-- Python `str.lower()` (character-wise lowering; agrees with Python on
ASCII text). -/
def pyLower (s : String) : String :=
  ⟨s.data.map Char.toLower⟩

/-- `body = data.get("Body", "").strip().lower()` (normalization of the
inbound text). -/
def normBody (p : Payload) : String :=
  pyLower (pyStrip (p.Body.getD ""))

/-- `original_body = data.get("Body", "").strip()`. -/
def origBody (p : Payload) : String :=
  pyStrip (p.Body.getD "")

/-- The message sent with the representation-term link (status `inicial`,
affirmative answer); contains the `TERMO_URL` value. -/
def mensagemComTermo (contactName termoUrl : String) : String :=
  "Excelente, " ++ contactName ++ "! 🙌\n\nPara darmos andamento de forma organizada e transparente, estou enviando em anexo o Termo de Representação.\n\nEsse termo autoriza a Winston Serviços Corporativos a representar o(a) Sr.(a) na busca de propostas para o seu precatório.\n\n📌 *Importante:*\n• O documento não obriga a venda imediata;\n• Garante apenas que a Winston poderá negociar em seu nome, protegendo sua oportunidade;\n• Prevê uma remuneração de 6% para a Winston, paga somente em caso de efetiva venda.\n\n📄 *Acesse o termo aqui:* " ++ termoUrl ++ "\n\nApós o preenchimento, envie a palavra *preenchido* para prosseguirmos."

/-- The future-offer consent question (status `inicial`, negative answer). -/
def mensagemOfertaFutura (contactName : String) : String :=
  "Entendido, " ++ contactName ++ "!\n\nMesmo assim, gostaríamos de manter você informado(a) sobre oportunidades futuras que podem oferecer condições ainda melhores.\n\nAceita que a Winston envie propostas futuras, caso surjam oportunidades vantajosas?\n\nResponda com *SIM* ou *NÃO*."

/-- The clarification request (status `inicial`, unrecognized answer). -/
def mensagemClarificacao (contactName : String) : String :=
  "Olá " ++ contactName ++ ", não entendi sua resposta. Por favor, responda com 'SIM' para prosseguir ou 'NÃO' para encerrar."

/-- Confirmation that the contact will be kept for future offers. -/
def mensagemConfirmadoFuturo (contactName : String) : String :=
  "Confirmado, " ++ contactName ++ "! Manteremos seu contato para futuras oportunidades."

/-- Farewell after the contact declines future offers. -/
def mensagemFinal (contactName : String) : String :=
  "Entendido, " ++ contactName ++ ".\n\nRespeitamos sua decisão. Caso mude de ideia, estaremos à disposição.\n\nObrigado pela atenção!\n\nWinston Serviços Corporativos"

/-- Thank-you / next-steps message after the term is filled in. -/
def mensagemConfirmacaoTermo (contactName : String) : String :=
  "Agradecemos a confiança, " ++ contactName ++ "! 🙏\n\nA partir de agora, sua oportunidade será apresentada a bancos, fundos e investidores da nossa base qualificada.\n\nAssim que tivermos uma boa proposta concreta, entraremos em contato imediatamente para compartilhar os detalhes.\n\nSeguiremos juntos para viabilizar a melhor negociação possível.\n\nAtenciosamente, Winston Serviços Corporativos."

/-- Reminder while waiting for the term to be filled in. -/
def mensagemLembreteTermo : String :=
  "Ainda estamos aguardando o preenchimento do termo. Assim que o fizer, por favor, envie a palavra *preenchido*."

/-- Escalation acknowledgment for the "atendente" override. -/
def mensagemAtendente : String :=
  "Certo! Um de nossos especialistas entrará em contato em breve. Obrigado!"

/-- `contact.get('name') or profile_name`: Python `or` falls through on a
falsy value, i.e. on `None` and on the empty string. -/
def contactNameOf (name : Option String) (profileName : String) : String :=
  match name with
  | some n => if n = "" then profileName else n
  | none => profileName

/-- Update every contact row whose `id` matches (the `.eq('id', …)` filter
of a Supabase `update`). -/
def updateById (contacts : List Contact) (cid : Nat) (f : Contact → Contact) :
    List Contact :=
  contacts.map (fun c => if c.id = cid then f c else c)

/-- The `POST /webhook` handler of `src/app.py` (function `webhook`).
Parameters: `termoUrl` is `os.getenv('TERMO_URL', …)`; `now` the current
instant (`datetime.now()`); `twilio` the provider oracle used by
`enviar_whatsapp`; `f` says which Supabase calls raise. -/
def webhook (termoUrl : String) (now : Nat)
    (twilio : String → String → Option String) (f : Failures)
    (p : Payload) (db : Db) : WebhookResult :=
  let profileName := p.ProfileName.getD "Cliente"
  let body := normBody p
  let originalBody := origBody p
  match p.From with
  | none => ⟨db, [], 200, "OK"⟩
  | some fromNum =>
    if f.lookupRaises then ⟨db, [], 200, "OK"⟩ else
    match db.contacts.find? (fun c => c.phone == fromNum) with
    | none => ⟨db, [], 200, "OK"⟩
    | some contact =>
      let contactId := contact.id
      let currentStatus := contact.status
      let contactName := contactNameOf contact.name profileName
      if f.insertMsgRaises then ⟨db, [], 200, "OK"⟩ else
      let db1 : Db :=
        { db with messages := (db.messages ++
            [⟨contactId, "user", originalBody, now, p.MessageSid⟩]) }
      if f.updateLastRaises then ⟨db1, [], 200, "OK"⟩ else
      let db2 : Db :=
        { db1 with contacts := (updateById db1.contacts contactId
            (fun c => { c with lastMessage := originalBody,
                               lastTimestamp := now, unread := true })) }
      if strContains body "atendente" then
        let sends := [⟨fromNum, mensagemAtendente, twilio fromNum mensagemAtendente⟩]
        if f.updateStatusRaises then ⟨db2, sends, 200, "OK"⟩ else
        ⟨{ db2 with contacts := (updateById db2.contacts contactId
             (fun c => { c with status := "Aguardando Vendedor",
                                automationStatus := "Pausada" })) },
         sends, 200, "OK"⟩
      else if currentStatus = "inicial" then
        if anyTokenIn body ["sim", "s", "yes", "quero"] then
          let msg := mensagemComTermo contactName termoUrl
          let sends := [⟨fromNum, msg, twilio fromNum msg⟩]
          if f.updateStatusRaises then ⟨db2, sends, 200, "OK"⟩ else
          ⟨{ db2 with contacts := (updateById db2.contacts contactId
               (fun c => { c with status := "aguardando_termo" })) },
           sends, 200, "OK"⟩
        else if anyTokenIn body ["não", "nao", "n", "no"] then
          let msg := mensagemOfertaFutura contactName
          let sends := [⟨fromNum, msg, twilio fromNum msg⟩]
          if f.updateStatusRaises then ⟨db2, sends, 200, "OK"⟩ else
          ⟨{ db2 with contacts := (updateById db2.contacts contactId
               (fun c => { c with status := "oferta_futura" })) },
           sends, 200, "OK"⟩
        else
          let msg := mensagemClarificacao contactName
          ⟨db2, [⟨fromNum, msg, twilio fromNum msg⟩], 200, "OK"⟩
      else if currentStatus = "oferta_futura" then
        if anyTokenIn body ["sim", "s", "yes"] then
          let msg := mensagemConfirmadoFuturo contactName
          let sends := [⟨fromNum, msg, twilio fromNum msg⟩]
          if f.updateStatusRaises then ⟨db2, sends, 200, "OK"⟩ else
          ⟨{ db2 with contacts := (updateById db2.contacts contactId
               (fun c => { c with status := "aguardando_oferta_futura",
                                  automationStatus := "Pausada" })) },
           sends, 200, "OK"⟩
        else if anyTokenIn body ["não", "nao", "n", "no"] then
          let msg := mensagemFinal contactName
          let sends := [⟨fromNum, msg, twilio fromNum msg⟩]
          if f.updateStatusRaises then ⟨db2, sends, 200, "OK"⟩ else
          ⟨{ db2 with contacts := (updateById db2.contacts contactId
               (fun c => { c with status := "recusou_contato_futuro",
                                  automationStatus := "Concluída" })) },
           sends, 200, "OK"⟩
        else
          ⟨db2, [], 200, "OK"⟩
      else if currentStatus = "aguardando_termo" then
        if strContains body "preenchido" then
          let msg := mensagemConfirmacaoTermo contactName
          let sends := [⟨fromNum, msg, twilio fromNum msg⟩]
          if f.updateStatusRaises then ⟨db2, sends, 200, "OK"⟩ else
          ⟨{ db2 with contacts := (updateById db2.contacts contactId
               (fun c => { c with status := "pos_termo",
                                  termo_enviado_em := some now })) },
           sends, 200, "OK"⟩
        else
          ⟨db2, [⟨fromNum, mensagemLembreteTermo,
                  twilio fromNum mensagemLembreteTermo⟩], 200, "OK"⟩
      else
        ⟨db2, [], 200, "OK"⟩

/-! ### Initial trigger (`disparar_e_registrar_contato_inicial`) and batch endpoint -/

/-- Outcome dictionary returned by `disparar_e_registrar_contato_inicial`. -/
inductive DispStatus where
  | sucesso (sid : String)
  | erro (mensagem : String)
  deriving Repr, DecidableEq

/-- The Supabase `upsert(contact_data, on_conflict='phone')`: if a row with
this phone exists, overwrite the supplied columns (phone, name, status,
automationStatus) on every such row; otherwise append a fresh row. -/
def upsertContato (contacts : List Contact) (numero nome : String) :
    List Contact :=
  if contacts.any (fun c => c.phone == numero) then
    contacts.map (fun c =>
      if c.phone == numero then
        { c with name := some nome, status := "inicial",
                 automationStatus := "Ativa" }
      else c)
  else
    contacts ++ [⟨contacts.length, numero, some nome, "inicial", "Ativa",
                  "", 0, false, none⟩]

/-- `disparar_e_registrar_contato_inicial(numero, nome)`: upsert the
contact, then fire the initial Twilio template.  `upsertOk = false` models
the Supabase call raising (no write happens); `tmpl` is the Twilio
outcome — a sid, or the exception text `str(e)`.  A Twilio failure after a
successful upsert leaves the row in place (no rollback). -/
def disparar_e_registrar_contato_inicial (upsertOk : Bool)
    (tmpl : Except String String) (db : List Contact) (numero nome : String) :
    List Contact × DispStatus :=
  if upsertOk then
    let db' := upsertContato db numero nome
    match tmpl with
    | .ok sid => (db', .sucesso sid)
    | .error e => (db', .erro e)
  else
    (db, .erro "Falha ao salvar contato no Supabase")

/-- One entry of the `contatos` list posted to `/api/disparar_lote`; both
fields may be absent (`contato.get` returns `None`). -/
structure ContatoInput where
  numero : Option String
  nome : Option String
  deriving Repr, DecidableEq

/-- A `sucessos` entry: the original item and the Twilio sid. -/
structure ItemSucesso where
  contato : ContatoInput
  sid : String
  deriving Repr, DecidableEq

/-- A `falhas` entry: the original item and the failure reason. -/
structure ItemFalha where
  contato : ContatoInput
  motivo : String
  deriving Repr, DecidableEq

/-- The `{"sucessos": [...], "falhas": [...]}` response body. -/
structure Resultados where
  sucessos : List ItemSucesso
  falhas : List ItemFalha
  deriving Repr, DecidableEq

/-- Python truthiness test `if not numero` on `contato.get("numero")`:
true when the key is absent or the value is the empty string. -/
def numeroMissing : Option String → Bool
  | none => true
  | some s => s == ""

/-- Python `numero.startswith("whatsapp:")` (structural model). -/
def pyStartswith (s pre : String) : Bool :=
  pre.data.isPrefixOf s.data

/-- `"whatsapp:" + numero` unless already prefixed. -/
def normalizeNumero (numero : String) : String :=
  if pyStartswith numero "whatsapp:" then numero else "whatsapp:" ++ numero

/-- The loop body of `api_disparar_lote`, processing the remaining items
sequentially.  `i` is the position in the original list; `uo i` / `tp i`
are the external outcomes (Supabase upsert, Twilio template send) for the
item at position `i`. -/
def loteLoop (uo : Nat → Bool) (tp : Nat → Except String String) :
    Nat → List Contact → List ContatoInput → List Contact × Resultados
  | _, db, [] => (db, ⟨[], []⟩)
  | i, db, c :: rest =>
    if numeroMissing c.numero then
      let r := loteLoop uo tp (i + 1) db rest
      (r.1, ⟨r.2.sucessos, ⟨c, "Número ausente"⟩ :: r.2.falhas⟩)
    else
      match disparar_e_registrar_contato_inicial (uo i) (tp i) db
          (normalizeNumero (c.numero.getD "")) (c.nome.getD "Cliente") with
      | (db1, .sucesso sid) =>
        let r := loteLoop uo tp (i + 1) db1 rest
        (r.1, ⟨⟨c, sid⟩ :: r.2.sucessos, r.2.falhas⟩)
      | (db1, .erro m) =>
        let r := loteLoop uo tp (i + 1) db1 rest
        (r.1, ⟨r.2.sucessos, ⟨c, m⟩ :: r.2.falhas⟩)

/-- The `POST /api/disparar_lote` handler: validate the list, then run the
sequential loop; responds 400 on a missing/empty list, else 200 with the
partition. -/
def api_disparar_lote (uo : Nat → Bool) (tp : Nat → Except String String)
    (contatos : Option (List ContatoInput)) (db : List Contact) :
    List Contact × Except String Resultados :=
  match contatos with
  | none => (db, .error "A lista de contatos é inválida ou ausente.")
  | some cs =>
    if cs.isEmpty then (db, .error "A lista de contatos é inválida ou ausente.")
    else
      let r := loteLoop uo tp 0 db cs
      (r.1, .ok r.2)

/-! ### Follow-up poller (not present in `src/`; modelled from the spec) -/

/-- Reminder text sent by the poller (abstract; the poller is not in
`src/`). -/
def mensagemFollowup : String := "followup"

/-- Modelled from the spec: eligibility test of the Follow-up Poller —
"select all Contacts in status `pos_termo` with a non-null term-submission
timestamp; for each, if now ≥ term-submission timestamp + configured
reminder delay".  The poller itself is absent from `src/`; only the spec
(§4.5) describes it. -/
def pollerEligible (now delay : Nat) (c : Contact) : Bool :=
  c.status == "pos_termo" &&
    match c.termo_enviado_em with
    | some t => decide (t + delay ≤ now)
    | none => false

/-- Modelled from the spec: one run of the Follow-up Poller, absent from
`src/` — for each eligible contact, send one reminder and transition the
contact to `followup_enviado`; all other contacts are untouched. -/
def pollerRun (now delay : Nat) (db : List Contact) :
    List Contact × List Send :=
  (db.map (fun c =>
     if pollerEligible now delay c then { c with status := "followup_enviado" }
     else c),
   db.filterMap (fun c =>
     if pollerEligible now delay c then
       some ⟨c.phone, mensagemFollowup, none⟩
     else none))

/-! ### Helper lemmas -/

theorem containsSubList_append_self (n b : List Char) :
    containsSubList n (n ++ b) = true := by
  cases n with
  | nil => cases b <;> simp [containsSubList, List.isPrefixOf]
  | cons x m =>
    simp only [List.cons_append, containsSubList, Bool.or_eq_true]
    left
    simp [List.isPrefixOf_iff_prefix, List.cons_prefix_cons, List.prefix_append]

theorem containsSubList_middle (a n b : List Char) :
    containsSubList n (a ++ (n ++ b)) = true := by
  induction a with
  | nil => simpa using containsSubList_append_self n b
  | cons x t ih =>
    simp only [List.cons_append, containsSubList, Bool.or_eq_true]
    right
    exact ih

/-- A string built around `u` contains `u` as a substring. -/
theorem strContains_middle (a u c : String) :
    strContains (a ++ u ++ c) u = true := by
  unfold strContains
  rw [String.data_append, String.data_append, List.append_assoc]
  exact containsSubList_middle a.data u.data c.data

/-- The term message always carries the `TERMO_URL` value. -/
theorem mensagemComTermo_contains_url (name url : String) :
    strContains (mensagemComTermo name url) url = true :=
  strContains_middle _ url _

/-- Membership in an `updateById`: either the element is the image of a row
with the matching id, or it is an untouched row with a different id. -/
theorem mem_updateById {contacts : List Contact} {cid : Nat}
    {f : Contact → Contact} {c : Contact} (hc : c ∈ updateById contacts cid f) :
    (∃ a, a ∈ contacts ∧ a.id = cid ∧ c = f a) ∨ (c ∈ contacts ∧ c.id ≠ cid) := by
  unfold updateById at hc
  rcases List.mem_map.mp hc with ⟨a, ha, hEq⟩
  by_cases h : a.id = cid
  · exact Or.inl ⟨a, ha, h, by rw [← hEq, if_pos h]⟩
  · rw [if_neg h] at hEq
    exact Or.inr ⟨hEq ▸ ha, hEq ▸ h⟩

/-- An `updateById` whose update function preserves a projection leaves
the (positional) list of that projection unchanged. -/
theorem updateById_map_proj {β : Type} (proj : Contact → β)
    (contacts : List Contact) (cid : Nat) (f : Contact → Contact)
    (hf : ∀ a, proj (f a) = proj a) :
    (updateById contacts cid f).map proj = contacts.map proj := by
  unfold updateById
  rw [List.map_map]
  apply List.map_congr_left
  intro a _
  by_cases h : a.id = cid <;> simp [h, hf]

/-- Concrete contact row used by witnesses and counterexamples. -/
def mkContact (st : String) : Contact :=
  ⟨0, "whatsapp:+5511999999999", some "Ana", st, "Ativa", "", 0, false, none⟩

/-- Concrete inbound payload used by witnesses and counterexamples. -/
def mkPayload (b : String) : Payload :=
  ⟨some "whatsapp:+5511999999999", some "Ana", some b, some "SM1"⟩

/-- Concrete one-contact store used by witnesses and counterexamples. -/
def mkDb (st : String) : Db := ⟨[mkContact st], []⟩

/-! ### Claim theorems -/

/-- C1: From status `inicial`, with a normalized body free of "atendente":
an affirmative token from {"sim","s","yes","quero"} moves the contact to
`aguardando_termo` and exactly one reply containing the `TERMO_URL` is
sent; a negative token from {"não","nao","n","no"} (with no affirmative
token) moves it to `oferta_futura` with the future-offer consent question;
a body matching neither leaves every status unchanged and sends the
SIM/NÃO clarification. -/
theorem C1_inicial_transitions
    (termoUrl : String) (now : Nat)
    (twilio : String → String → Option String) (p : Payload) (db : Db)
    (ph : String) (contact : Contact)
    (hFrom : p.From = some ph)
    (hFind : db.contacts.find? (fun c => c.phone == ph) = some contact)
    (hStatus : contact.status = "inicial")
    (hAt : strContains (normBody p) "atendente" = false) :
    (anyTokenIn (normBody p) ["sim", "s", "yes", "quero"] = true →
       (webhook termoUrl now twilio noFail p db).sends.length = 1 ∧
       (∀ s ∈ (webhook termoUrl now twilio noFail p db).sends,
          strContains s.body termoUrl = true) ∧
       (∀ c ∈ (webhook termoUrl now twilio noFail p db).db.contacts,
          c.id = contact.id → c.status = "aguardando_termo")) ∧
    (anyTokenIn (normBody p) ["sim", "s", "yes", "quero"] = false →
     anyTokenIn (normBody p) ["não", "nao", "n", "no"] = true →
       (webhook termoUrl now twilio noFail p db).sends
         = [⟨ph, mensagemOfertaFutura
                   (contactNameOf contact.name (p.ProfileName.getD "Cliente")),
             twilio ph (mensagemOfertaFutura
                   (contactNameOf contact.name (p.ProfileName.getD "Cliente")))⟩] ∧
       (∀ c ∈ (webhook termoUrl now twilio noFail p db).db.contacts,
          c.id = contact.id → c.status = "oferta_futura")) ∧
    (anyTokenIn (normBody p) ["sim", "s", "yes", "quero"] = false →
     anyTokenIn (normBody p) ["não", "nao", "n", "no"] = false →
       (webhook termoUrl now twilio noFail p db).db.contacts.map Contact.status
         = db.contacts.map Contact.status ∧
       (webhook termoUrl now twilio noFail p db).sends
         = [⟨ph, mensagemClarificacao
                   (contactNameOf contact.name (p.ProfileName.getD "Cliente")),
             twilio ph (mensagemClarificacao
                   (contactNameOf contact.name (p.ProfileName.getD "Cliente")))⟩]) := by
  refine ⟨fun hAff => ?_, fun hAff hNeg => ?_, fun hAff hNeg => ?_⟩
  · simp only [webhook, hFrom, hFind, hStatus, hAt, hAff, noFail,
      Bool.false_eq_true, if_false, if_true, reduceIte]
    refine ⟨rfl, ?_, ?_⟩
    · intro s hs
      simp only [List.mem_singleton] at hs
      subst hs
      exact mensagemComTermo_contains_url _ _
    · intro c hc hid
      rcases mem_updateById hc with ⟨a, _, _, hEq⟩ | ⟨_, hne⟩
      · rw [hEq]
      · exact absurd hid hne
  · simp only [webhook, hFrom, hFind, hStatus, hAt, hAff, hNeg, noFail,
      Bool.false_eq_true, if_false, if_true, reduceIte]
    refine ⟨trivial, ?_⟩
    intro c hc hid
    rcases mem_updateById hc with ⟨a, _, _, hEq⟩ | ⟨_, hne⟩
    · rw [hEq]
    · exact absurd hid hne
  · simp only [webhook, hFrom, hFind, hStatus, hAt, hAff, hNeg, noFail,
      Bool.false_eq_true, if_false, if_true, reduceIte]
    refine ⟨?_, trivial⟩
    exact updateById_map_proj Contact.status db.contacts contact.id _
      (fun a => rfl)

/-- C1 witness: a concrete run from `inicial` with body "sim". -/
theorem C1_inicial_transitions_witness :
    (webhook "http://t/termo.docx" 0 (fun _ _ => some "SID") noFail
       (mkPayload "sim") (mkDb "inicial")).sends.length = 1 ∧
    (∀ s ∈ (webhook "http://t/termo.docx" 0 (fun _ _ => some "SID") noFail
       (mkPayload "sim") (mkDb "inicial")).sends,
       strContains s.body "http://t/termo.docx" = true) ∧
    (∀ c ∈ (webhook "http://t/termo.docx" 0 (fun _ _ => some "SID") noFail
       (mkPayload "sim") (mkDb "inicial")).db.contacts,
       c.id = (mkContact "inicial").id → c.status = "aguardando_termo") :=
  (C1_inicial_transitions "http://t/termo.docx" 0 (fun _ _ => some "SID")
    (mkPayload "sim") (mkDb "inicial") "whatsapp:+5511999999999"
    (mkContact "inicial") rfl (by decide) rfl (by decide)).1 (by decide)

/-- C2 counterexample: "quero" is in the claimed affirmative set, yet at
status `oferta_futura` the handler matches neither branch — no reply is
sent, the status stays `oferta_futura`, and the automation flag stays
`Ativa`, contradicting the claimed transition to
`aguardando_oferta_futura` with paused automation. -/
theorem C2_counterexample :
    anyTokenIn (normBody (mkPayload "quero")) ["sim", "s", "yes", "quero"] = true ∧
    strContains (normBody (mkPayload "quero")) "atendente" = false ∧
    (webhook "u" 0 (fun _ _ => some "SID") noFail (mkPayload "quero")
       (mkDb "oferta_futura")).sends = [] ∧
    (∀ c ∈ (webhook "u" 0 (fun _ _ => some "SID") noFail (mkPayload "quero")
       (mkDb "oferta_futura")).db.contacts,
       c.status = "oferta_futura" ∧ c.automationStatus = "Ativa") := by
  decide

/-- C2 (amended): at status `oferta_futura` the affirmative set the code
checks is {"sim","s","yes"} (without "quero"); such a token moves the
contact to `aguardando_oferta_futura` with automation `Pausada` and the
confirmation reply; a negative token from {"não","nao","n","no"} with no
affirmative token moves it to `recusou_contato_futuro` with automation
`Concluída` and the farewell reply. -/
theorem C2_oferta_futura_transitions
    (termoUrl : String) (now : Nat)
    (twilio : String → String → Option String) (p : Payload) (db : Db)
    (ph : String) (contact : Contact)
    (hFrom : p.From = some ph)
    (hFind : db.contacts.find? (fun c => c.phone == ph) = some contact)
    (hStatus : contact.status = "oferta_futura")
    (hAt : strContains (normBody p) "atendente" = false) :
    (anyTokenIn (normBody p) ["sim", "s", "yes"] = true →
       (webhook termoUrl now twilio noFail p db).sends
         = [⟨ph, mensagemConfirmadoFuturo
                   (contactNameOf contact.name (p.ProfileName.getD "Cliente")),
             twilio ph (mensagemConfirmadoFuturo
                   (contactNameOf contact.name (p.ProfileName.getD "Cliente")))⟩] ∧
       (∀ c ∈ (webhook termoUrl now twilio noFail p db).db.contacts,
          c.id = contact.id →
            c.status = "aguardando_oferta_futura" ∧
            c.automationStatus = "Pausada")) ∧
    (anyTokenIn (normBody p) ["sim", "s", "yes"] = false →
     anyTokenIn (normBody p) ["não", "nao", "n", "no"] = true →
       (webhook termoUrl now twilio noFail p db).sends
         = [⟨ph, mensagemFinal
                   (contactNameOf contact.name (p.ProfileName.getD "Cliente")),
             twilio ph (mensagemFinal
                   (contactNameOf contact.name (p.ProfileName.getD "Cliente")))⟩] ∧
       (∀ c ∈ (webhook termoUrl now twilio noFail p db).db.contacts,
          c.id = contact.id →
            c.status = "recusou_contato_futuro" ∧
            c.automationStatus = "Concluída")) := by
  refine ⟨fun hAff => ?_, fun hAff hNeg => ?_⟩
  · simp +decide only [webhook, hFrom, hFind, hStatus, hAt, hAff, noFail,
      Bool.false_eq_true, if_false, if_true, reduceIte]
    refine ⟨trivial, ?_⟩
    intro c hc hid
    rcases mem_updateById hc with ⟨a, _, _, hEq⟩ | ⟨_, hne⟩
    · rw [hEq]; exact ⟨rfl, rfl⟩
    · exact absurd hid hne
  · simp +decide only [webhook, hFrom, hFind, hStatus, hAt, hAff, hNeg, noFail,
      Bool.false_eq_true, if_false, if_true, reduceIte]
    refine ⟨trivial, ?_⟩
    intro c hc hid
    rcases mem_updateById hc with ⟨a, _, _, hEq⟩ | ⟨_, hne⟩
    · rw [hEq]; exact ⟨rfl, rfl⟩
    · exact absurd hid hne

/-- C2 witness: a concrete run from `oferta_futura` with body "sim". -/
theorem C2_oferta_futura_transitions_witness :
    (webhook "u" 3 (fun _ _ => some "SID") noFail (mkPayload "sim")
       (mkDb "oferta_futura")).sends
      = [⟨"whatsapp:+5511999999999", mensagemConfirmadoFuturo "Ana",
          some "SID"⟩] ∧
    (∀ c ∈ (webhook "u" 3 (fun _ _ => some "SID") noFail (mkPayload "sim")
       (mkDb "oferta_futura")).db.contacts,
       c.id = (mkContact "oferta_futura").id →
         c.status = "aguardando_oferta_futura" ∧
         c.automationStatus = "Pausada") :=
  (C2_oferta_futura_transitions "u" 3 (fun _ _ => some "SID")
    (mkPayload "sim") (mkDb "oferta_futura") "whatsapp:+5511999999999"
    (mkContact "oferta_futura") rfl (by decide) rfl (by decide)).1 (by decide)

/-- C3: at status `aguardando_termo`, with a normalized body free of
"atendente": a body containing "preenchido" moves the contact to
`pos_termo`, records the term-submission timestamp, and sends the
thank-you message; any other body leaves every status unchanged and sends
the reminder. -/
theorem C3_aguardando_termo_transitions
    (termoUrl : String) (now : Nat)
    (twilio : String → String → Option String) (p : Payload) (db : Db)
    (ph : String) (contact : Contact)
    (hFrom : p.From = some ph)
    (hFind : db.contacts.find? (fun c => c.phone == ph) = some contact)
    (hStatus : contact.status = "aguardando_termo")
    (hAt : strContains (normBody p) "atendente" = false) :
    (strContains (normBody p) "preenchido" = true →
       (webhook termoUrl now twilio noFail p db).sends
         = [⟨ph, mensagemConfirmacaoTermo
                   (contactNameOf contact.name (p.ProfileName.getD "Cliente")),
             twilio ph (mensagemConfirmacaoTermo
                   (contactNameOf contact.name (p.ProfileName.getD "Cliente")))⟩] ∧
       (∀ c ∈ (webhook termoUrl now twilio noFail p db).db.contacts,
          c.id = contact.id →
            c.status = "pos_termo" ∧ c.termo_enviado_em = some now)) ∧
    (strContains (normBody p) "preenchido" = false →
       (webhook termoUrl now twilio noFail p db).db.contacts.map Contact.status
         = db.contacts.map Contact.status ∧
       (webhook termoUrl now twilio noFail p db).sends
         = [⟨ph, mensagemLembreteTermo, twilio ph mensagemLembreteTermo⟩]) := by
  refine ⟨fun hPre => ?_, fun hPre => ?_⟩
  · simp +decide only [webhook, hFrom, hFind, hStatus, hAt, hPre, noFail,
      Bool.false_eq_true, if_false, if_true, reduceIte]
    refine ⟨trivial, ?_⟩
    intro c hc hid
    rcases mem_updateById hc with ⟨a, _, _, hEq⟩ | ⟨_, hne⟩
    · rw [hEq]; exact ⟨rfl, rfl⟩
    · exact absurd hid hne
  · simp +decide only [webhook, hFrom, hFind, hStatus, hAt, hPre, noFail,
      Bool.false_eq_true, if_false, if_true, reduceIte]
    refine ⟨?_, trivial⟩
    exact updateById_map_proj Contact.status db.contacts contact.id _
      (fun a => rfl)

/-- C3 witness: a concrete run from `aguardando_termo` with body
"preenchido". -/
theorem C3_aguardando_termo_transitions_witness :
    (webhook "u" 9 (fun _ _ => some "SID") noFail (mkPayload "preenchido")
       (mkDb "aguardando_termo")).sends
      = [⟨"whatsapp:+5511999999999", mensagemConfirmacaoTermo "Ana",
          some "SID"⟩] ∧
    (∀ c ∈ (webhook "u" 9 (fun _ _ => some "SID") noFail
       (mkPayload "preenchido") (mkDb "aguardando_termo")).db.contacts,
       c.id = (mkContact "aguardando_termo").id →
         c.status = "pos_termo" ∧ c.termo_enviado_em = some 9) :=
  (C3_aguardando_termo_transitions "u" 9 (fun _ _ => some "SID")
    (mkPayload "preenchido") (mkDb "aguardando_termo")
    "whatsapp:+5511999999999" (mkContact "aguardando_termo") rfl (by decide)
    rfl (by decide)).1 (by decide)

/-- C4: for a contact in any status, a normalized body containing
"atendente" makes the handler send exactly the escalation acknowledgment,
set the status to `Aguardando Vendedor` and the automation flag to
`Pausada`, and run no state-specific logic: no other reply is sent and no
term-submission timestamp is recorded. -/
theorem C4_atendente_override
    (termoUrl : String) (now : Nat)
    (twilio : String → String → Option String) (p : Payload) (db : Db)
    (ph : String) (contact : Contact)
    (hFrom : p.From = some ph)
    (hFind : db.contacts.find? (fun c => c.phone == ph) = some contact)
    (hAt : strContains (normBody p) "atendente" = true) :
    (webhook termoUrl now twilio noFail p db).sends
      = [⟨ph, mensagemAtendente, twilio ph mensagemAtendente⟩] ∧
    (∀ c ∈ (webhook termoUrl now twilio noFail p db).db.contacts,
       c.id = contact.id →
         c.status = "Aguardando Vendedor" ∧ c.automationStatus = "Pausada") ∧
    (webhook termoUrl now twilio noFail p db).db.contacts.map
        Contact.termo_enviado_em
      = db.contacts.map Contact.termo_enviado_em := by
  simp only [webhook, hFrom, hFind, hAt, noFail, Bool.false_eq_true,
    if_false, if_true, reduceIte]
  refine ⟨trivial, ?_, ?_⟩
  · intro c hc hid
    rcases mem_updateById hc with ⟨a, _, _, hEq⟩ | ⟨_, hne⟩
    · rw [hEq]; exact ⟨rfl, rfl⟩
    · exact absurd hid hne
  · rw [updateById_map_proj, updateById_map_proj] <;> intro a <;> rfl

/-- C4 witness: a concrete escalation from status `pos_termo` with body
"quero falar com um atendente". -/
theorem C4_atendente_override_witness :
    (webhook "u" 4 (fun _ _ => some "SID") noFail
       (mkPayload "quero falar com um atendente") (mkDb "pos_termo")).sends
      = [⟨"whatsapp:+5511999999999", mensagemAtendente, some "SID"⟩] ∧
    (∀ c ∈ (webhook "u" 4 (fun _ _ => some "SID") noFail
       (mkPayload "quero falar com um atendente") (mkDb "pos_termo")).db.contacts,
       c.id = (mkContact "pos_termo").id →
         c.status = "Aguardando Vendedor" ∧ c.automationStatus = "Pausada") :=
  ⟨(C4_atendente_override "u" 4 (fun _ _ => some "SID")
     (mkPayload "quero falar com um atendente") (mkDb "pos_termo")
     "whatsapp:+5511999999999" (mkContact "pos_termo") rfl (by decide)
     (by decide)).1,
   (C4_atendente_override "u" 4 (fun _ _ => some "SID")
     (mkPayload "quero falar com um atendente") (mkDb "pos_termo")
     "whatsapp:+5511999999999" (mkContact "pos_termo") rfl (by decide)
     (by decide)).2.1⟩

/-- C5 counterexample: a concrete inbound message that produces a reply
(the term message) after which the message log holds only the inbound
`user` record — the outbound reply was never appended to the messages
table, contradicting "every successful outbound send results in a logged
outbound message record". -/
theorem C5_counterexample :
    (webhook "u" 0 (fun _ _ => some "SID") noFail (mkPayload "sim")
       (mkDb "inicial")).sends.length = 1 ∧
    (webhook "u" 0 (fun _ _ => some "SID") noFail (mkPayload "sim")
       (mkDb "inicial")).db.messages
      = [⟨0, "user", "sim", 0, some "SM1"⟩] ∧
    (∀ m ∈ (webhook "u" 0 (fun _ _ => some "SID") noFail (mkPayload "sim")
       (mkDb "inicial")).db.messages, m.sender = "user") := by
  decide

/-- C5 (amended): the webhook never logs outbound replies; whenever the
contact is found and no Supabase call raises, the message log afterwards
is exactly the old log plus the single inbound `user` message, whatever
reply the state machine produced. -/
theorem C5_only_inbound_logged
    (termoUrl : String) (now : Nat)
    (twilio : String → String → Option String) (p : Payload) (db : Db)
    (ph : String) (contact : Contact)
    (hFrom : p.From = some ph)
    (hFind : db.contacts.find? (fun c => c.phone == ph) = some contact) :
    (webhook termoUrl now twilio noFail p db).db.messages
      = db.messages ++ [⟨contact.id, "user", origBody p, now, p.MessageSid⟩] := by
  simp only [webhook, hFrom, hFind, noFail, Bool.false_eq_true, if_false,
    if_true, reduceIte]
  repeat' first | rfl | split

/-- C5 witness: the amended theorem at the concrete `inicial`/"sim" run. -/
theorem C5_only_inbound_logged_witness :
    (webhook "u" 0 (fun _ _ => some "SID") noFail (mkPayload "sim")
       (mkDb "inicial")).db.messages
      = (mkDb "inicial").messages
          ++ [⟨(mkContact "inicial").id, "user", origBody (mkPayload "sim"),
               0, (mkPayload "sim").MessageSid⟩] :=
  C5_only_inbound_logged "u" 0 (fun _ _ => some "SID") (mkPayload "sim")
    (mkDb "inicial") "whatsapp:+5511999999999" (mkContact "inicial") rfl
    (by decide)

/-- C6: the webhook acknowledges 200 "OK" whatever the payload, the store
contents, the Twilio outcomes and whichever Supabase call raises; and when
the payload carries no sender phone it acknowledges with no side effects
at all. -/
theorem C6_always_ok
    (termoUrl : String) (now : Nat)
    (twilio : String → String → Option String) (f : Failures)
    (p : Payload) (db : Db) :
    (webhook termoUrl now twilio f p db).httpStatus = 200 ∧
    (webhook termoUrl now twilio f p db).httpBody = "OK" ∧
    (p.From = none →
       (webhook termoUrl now twilio f p db).db = db ∧
       (webhook termoUrl now twilio f p db).sends = []) := by
  cases hp : p.From with
  | none =>
    simp [webhook, hp]
  | some ph =>
    refine ⟨?_, ?_, fun h => absurd h (by simp)⟩ <;>
    · simp only [webhook, hp]
      cases h1 : f.lookupRaises <;>
        cases hF : List.find? (fun c => c.phone == ph) db.contacts <;>
          cases h2 : f.insertMsgRaises <;>
            cases h3 : f.updateLastRaises <;>
              cases h4 : f.updateStatusRaises <;>
                simp only [h1, hF, h2, h3, h4, Bool.false_eq_true, if_true,
                  if_false, reduceIte] <;>
                repeat' first | rfl | split

/-- C6 witness: a malformed payload with no `From` is acknowledged with no
side effects. -/
theorem C6_always_ok_witness :
    (webhook "u" 0 (fun _ _ => some "SID") noFail ⟨none, none, some "sim", none⟩
       (mkDb "inicial")).httpStatus = 200 ∧
    (webhook "u" 0 (fun _ _ => some "SID") noFail ⟨none, none, some "sim", none⟩
       (mkDb "inicial")).db = mkDb "inicial" ∧
    (webhook "u" 0 (fun _ _ => some "SID") noFail ⟨none, none, some "sim", none⟩
       (mkDb "inicial")).sends = [] :=
  ⟨(C6_always_ok "u" 0 (fun _ _ => some "SID") noFail
      ⟨none, none, some "sim", none⟩ (mkDb "inicial")).1,
   ((C6_always_ok "u" 0 (fun _ _ => some "SID") noFail
      ⟨none, none, some "sim", none⟩ (mkDb "inicial")).2.2 rfl).1,
   ((C6_always_ok "u" 0 (fun _ _ => some "SID") noFail
      ⟨none, none, some "sim", none⟩ (mkDb "inicial")).2.2 rfl).2⟩

/-- C9: for every transition-triggering inbound message the webhook
persists the new status — and the automation flag where the branch sets
one — whatever the provider returns for each attempted send:
`enviar_whatsapp` swallows the failure and its result (recorded as the
`sid` of the attempt, `none` on failure) is never inspected, so the
transition is not rolled back.  The five status-changing branches
(atendente override, both `inicial` transitions, both `oferta_futura`
transitions, the `aguardando_termo` completion) are covered for an
arbitrary Twilio oracle, hence also for one that always fails. -/
theorem C9_transition_persists_despite_send_failure
    (termoUrl : String) (now : Nat)
    (twilio : String → String → Option String) (p : Payload) (db : Db)
    (ph : String) (contact : Contact)
    (hFrom : p.From = some ph)
    (hFind : db.contacts.find? (fun c => c.phone == ph) = some contact) :
    (∀ s ∈ (webhook termoUrl now twilio noFail p db).sends,
       s.sid = twilio s.dest s.body) ∧
    (strContains (normBody p) "atendente" = true →
       ∀ c ∈ (webhook termoUrl now twilio noFail p db).db.contacts,
         c.id = contact.id →
           c.status = "Aguardando Vendedor" ∧ c.automationStatus = "Pausada") ∧
    (strContains (normBody p) "atendente" = false →
     contact.status = "inicial" →
       (anyTokenIn (normBody p) ["sim", "s", "yes", "quero"] = true →
          ∀ c ∈ (webhook termoUrl now twilio noFail p db).db.contacts,
            c.id = contact.id → c.status = "aguardando_termo") ∧
       (anyTokenIn (normBody p) ["sim", "s", "yes", "quero"] = false →
        anyTokenIn (normBody p) ["não", "nao", "n", "no"] = true →
          ∀ c ∈ (webhook termoUrl now twilio noFail p db).db.contacts,
            c.id = contact.id → c.status = "oferta_futura")) ∧
    (strContains (normBody p) "atendente" = false →
     contact.status = "oferta_futura" →
       (anyTokenIn (normBody p) ["sim", "s", "yes"] = true →
          ∀ c ∈ (webhook termoUrl now twilio noFail p db).db.contacts,
            c.id = contact.id →
              c.status = "aguardando_oferta_futura" ∧
              c.automationStatus = "Pausada") ∧
       (anyTokenIn (normBody p) ["sim", "s", "yes"] = false →
        anyTokenIn (normBody p) ["não", "nao", "n", "no"] = true →
          ∀ c ∈ (webhook termoUrl now twilio noFail p db).db.contacts,
            c.id = contact.id →
              c.status = "recusou_contato_futuro" ∧
              c.automationStatus = "Concluída")) ∧
    (strContains (normBody p) "atendente" = false →
     contact.status = "aguardando_termo" →
     strContains (normBody p) "preenchido" = true →
       ∀ c ∈ (webhook termoUrl now twilio noFail p db).db.contacts,
         c.id = contact.id →
           c.status = "pos_termo" ∧ c.termo_enviado_em = some now) := by
  refine ⟨?_, ?_, ?_, ?_, ?_⟩
  · intro s hs
    simp only [webhook, hFrom, hFind, noFail, Bool.false_eq_true, if_false,
      if_true, reduceIte] at hs
    repeat' split at hs
    all_goals
      first
      | exact absurd hs (List.not_mem_nil s)
      | (simp only [List.mem_singleton] at hs; subst hs; rfl)
  · intro hAt c hc hid
    simp only [webhook, hFrom, hFind, hAt, noFail, Bool.false_eq_true,
      if_false, if_true, reduceIte] at hc
    rcases mem_updateById hc with ⟨a, _, _, hEq⟩ | ⟨_, hne⟩
    · rw [hEq]; exact ⟨rfl, rfl⟩
    · exact absurd hid hne
  · intro hAt hSt
    refine ⟨fun hAff c hc hid => ?_, fun hAff hNeg c hc hid => ?_⟩
    · simp +decide only [webhook, hFrom, hFind, hAt, hSt, hAff, noFail,
        Bool.false_eq_true, if_false, if_true, reduceIte] at hc
      rcases mem_updateById hc with ⟨a, _, _, hEq⟩ | ⟨_, hne⟩
      · rw [hEq]
      · exact absurd hid hne
    · simp +decide only [webhook, hFrom, hFind, hAt, hSt, hAff, hNeg, noFail,
        Bool.false_eq_true, if_false, if_true, reduceIte] at hc
      rcases mem_updateById hc with ⟨a, _, _, hEq⟩ | ⟨_, hne⟩
      · rw [hEq]
      · exact absurd hid hne
  · intro hAt hSt
    refine ⟨fun hAff c hc hid => ?_, fun hAff hNeg c hc hid => ?_⟩
    · simp +decide only [webhook, hFrom, hFind, hAt, hSt, hAff, noFail,
        Bool.false_eq_true, if_false, if_true, reduceIte] at hc
      rcases mem_updateById hc with ⟨a, _, _, hEq⟩ | ⟨_, hne⟩
      · rw [hEq]; exact ⟨rfl, rfl⟩
      · exact absurd hid hne
    · simp +decide only [webhook, hFrom, hFind, hAt, hSt, hAff, hNeg, noFail,
        Bool.false_eq_true, if_false, if_true, reduceIte] at hc
      rcases mem_updateById hc with ⟨a, _, _, hEq⟩ | ⟨_, hne⟩
      · rw [hEq]; exact ⟨rfl, rfl⟩
      · exact absurd hid hne
  · intro hAt hSt hPre c hc hid
    simp +decide only [webhook, hFrom, hFind, hAt, hSt, hPre, noFail,
      Bool.false_eq_true, if_false, if_true, reduceIte] at hc
    rcases mem_updateById hc with ⟨a, _, _, hEq⟩ | ⟨_, hne⟩
    · rw [hEq]; exact ⟨rfl, rfl⟩
    · exact absurd hid hne

/-- C9 witness: with an always-failing provider every recorded send has
`sid = none`, and the concrete `inicial`/"sim" run still persists the
`aguardando_termo` transition; the concrete `oferta_futura`/"sim" run
still persists both the status and the paused automation flag. -/
theorem C9_transition_persists_despite_send_failure_witness :
    (∀ s ∈ (webhook "u" 0 (fun _ _ => none) noFail (mkPayload "sim")
       (mkDb "inicial")).sends, s.sid = none) ∧
    (∀ c ∈ (webhook "u" 0 (fun _ _ => none) noFail (mkPayload "sim")
       (mkDb "inicial")).db.contacts,
       c.id = (mkContact "inicial").id → c.status = "aguardando_termo") ∧
    (∀ c ∈ (webhook "u" 0 (fun _ _ => none) noFail (mkPayload "sim")
       (mkDb "oferta_futura")).db.contacts,
       c.id = (mkContact "oferta_futura").id →
         c.status = "aguardando_oferta_futura" ∧
         c.automationStatus = "Pausada") :=
  ⟨(C9_transition_persists_despite_send_failure "u" 0 (fun _ _ => none)
      (mkPayload "sim") (mkDb "inicial") "whatsapp:+5511999999999"
      (mkContact "inicial") rfl (by decide)).1,
   ((C9_transition_persists_despite_send_failure "u" 0 (fun _ _ => none)
      (mkPayload "sim") (mkDb "inicial") "whatsapp:+5511999999999"
      (mkContact "inicial") rfl (by decide)).2.2.1 (by decide) rfl).1
      (by decide),
   ((C9_transition_persists_despite_send_failure "u" 0 (fun _ _ => none)
      (mkPayload "sim") (mkDb "oferta_futura") "whatsapp:+5511999999999"
      (mkContact "oferta_futura") rfl (by decide)).2.2.2.1 (by decide)
      rfl).1 (by decide)⟩

/-- The error text of a dispatch failure is never the missing-number
reason: the upsert-failure path uses a fixed different string and the
provider error text is constrained by the hypothesis. -/
theorem disparar_erro_motivo_ne (upsertOk : Bool) (tmpl : Except String String)
    (db : List Contact) (numero nome m : String)
    (htp : ∀ e, tmpl = .error e → e ≠ "Número ausente")
    (h : (disparar_e_registrar_contato_inicial upsertOk tmpl db numero nome).2
           = .erro m) :
    m ≠ "Número ausente" := by
  unfold disparar_e_registrar_contato_inicial at h
  by_cases hu : upsertOk = true
  · rw [if_pos hu] at h
    cases htmpl : tmpl with
    | ok sid => rw [htmpl] at h; exact absurd h (by simp)
    | error e =>
      rw [htmpl] at h
      simp only [DispStatus.erro.injEq] at h
      exact h ▸ htp e htmpl
  · rw [if_neg hu] at h
    simp only [DispStatus.erro.injEq] at h
    rw [← h]
    decide

/-- The per-item invariant of the batch loop: one outcome entry per item,
the missing-number failures are exactly the items with a missing number
(in order), and both output lists preserve the input order. -/
theorem loteLoop_spec (uo : Nat → Bool) (tp : Nat → Except String String)
    (htp : ∀ j e, tp j = .error e → e ≠ "Número ausente")
    (contatos : List ContatoInput) :
    ∀ (i : Nat) (db : List Contact),
      ((loteLoop uo tp i db contatos).2.sucessos.length
         + (loteLoop uo tp i db contatos).2.falhas.length = contatos.length) ∧
      (((loteLoop uo tp i db contatos).2.falhas.filter
          (fun fE => fE.motivo == "Número ausente")).map ItemFalha.contato
         = contatos.filter (fun c => numeroMissing c.numero)) ∧
      ((loteLoop uo tp i db contatos).2.sucessos.map
          ItemSucesso.contato).Sublist contatos ∧
      ((loteLoop uo tp i db contatos).2.falhas.map
          ItemFalha.contato).Sublist contatos := by
  induction contatos with
  | nil =>
    intro i db
    simp [loteLoop]
  | cons c rest ih =>
    intro i db
    by_cases hm : numeroMissing c.numero = true
    · simp only [loteLoop, hm, if_true, List.filter_cons, List.map_cons,
        List.length_cons]
      have h := ih (i + 1) db
      refine ⟨by omega, ?_, ?_, ?_⟩
      · simp only [List.filter_cons, beq_self_eq_true, if_true, hm,
          List.map_cons]
        exact congrArg (List.cons c) h.2.1
      · exact h.2.2.1.cons c
      · exact (h.2.2.2.cons₂ c)
    · rw [Bool.not_eq_true] at hm
      rcases hstep : disparar_e_registrar_contato_inicial (uo i) (tp i) db
        (normalizeNumero (c.numero.getD "")) (c.nome.getD "Cliente")
        with ⟨db1, res⟩
      cases res with
      | sucesso sid =>
        simp only [loteLoop, hm, Bool.false_eq_true, if_false, hstep,
          List.map_cons, List.length_cons]
        have h := ih (i + 1) db1
        refine ⟨by omega, ?_, h.2.2.1.cons₂ c, h.2.2.2.cons c⟩
        simp only [List.filter_cons, hm, if_false, Bool.false_eq_true]
        exact h.2.1
      | erro m =>
        have hne : m ≠ "Número ausente" :=
          disparar_erro_motivo_ne (uo i) (tp i) db
            (normalizeNumero (c.numero.getD "")) (c.nome.getD "Cliente") m
            (fun e he => htp i e he) (by rw [hstep])
        simp only [loteLoop, hm, Bool.false_eq_true, if_false, hstep,
          List.map_cons, List.length_cons]
        have h := ih (i + 1) db1
        refine ⟨by omega, ?_, h.2.2.1.cons c, h.2.2.2.cons₂ c⟩
        simp only [List.filter_cons, hm, if_false, Bool.false_eq_true,
          beq_eq_false_iff_ne.mpr hne]
        exact h.2.1

/-- C7: the batch endpoint with a nonempty list never fails atomically: it
answers 200 with a partition holding one entry per input item; the
failures with reason "Número ausente" are exactly the items with a missing
number, in input order, and both the successes and the failures list the
remaining items in input order according to each item's dispatch
outcome. -/
theorem C7_lote_partition (uo : Nat → Bool) (tp : Nat → Except String String)
    (db : List Contact) (cs : List ContatoInput)
    (hcs : cs.isEmpty = false)
    (htp : ∀ j e, tp j = .error e → e ≠ "Número ausente") :
    (api_disparar_lote uo tp (some cs) db).2
      = .ok (loteLoop uo tp 0 db cs).2 ∧
    ((loteLoop uo tp 0 db cs).2.sucessos.length
       + (loteLoop uo tp 0 db cs).2.falhas.length = cs.length) ∧
    (((loteLoop uo tp 0 db cs).2.falhas.filter
        (fun fE => fE.motivo == "Número ausente")).map ItemFalha.contato
       = cs.filter (fun c => numeroMissing c.numero)) ∧
    ((loteLoop uo tp 0 db cs).2.sucessos.map ItemSucesso.contato).Sublist cs ∧
    ((loteLoop uo tp 0 db cs).2.falhas.map ItemFalha.contato).Sublist cs := by
  have h := loteLoop_spec uo tp htp cs 0 db
  refine ⟨?_, h.1, h.2.1, h.2.2.1, h.2.2.2⟩
  simp [api_disparar_lote, hcs]

/-- C7 witness: a three-item batch — one missing number, one dispatch
success, one provider failure. -/
theorem C7_lote_partition_witness :
    ((api_disparar_lote (fun _ => true)
        (fun j => if j = 2 then .error "twilio down" else .ok "SID")
        (some [⟨none, some "Bia"⟩, ⟨some "+55", some "Ana"⟩,
               ⟨some "whatsapp:+56", none⟩]) []).2
      = .ok (loteLoop (fun _ => true)
          (fun j => if j = 2 then .error "twilio down" else .ok "SID")
          0 [] [⟨none, some "Bia"⟩, ⟨some "+55", some "Ana"⟩,
                ⟨some "whatsapp:+56", none⟩]).2) ∧
    ((loteLoop (fun _ => true)
        (fun j => if j = 2 then .error "twilio down" else .ok "SID")
        0 [] [⟨none, some "Bia"⟩, ⟨some "+55", some "Ana"⟩,
              ⟨some "whatsapp:+56", none⟩]).2.sucessos.length
      + (loteLoop (fun _ => true)
          (fun j => if j = 2 then .error "twilio down" else .ok "SID")
          0 [] [⟨none, some "Bia"⟩, ⟨some "+55", some "Ana"⟩,
                ⟨some "whatsapp:+56", none⟩]).2.falhas.length = 3) := by
  have h := C7_lote_partition (fun _ => true)
    (fun j => if j = 2 then .error "twilio down" else .ok "SID") []
    [⟨none, some "Bia"⟩, ⟨some "+55", some "Ana"⟩, ⟨some "whatsapp:+56", none⟩]
    (by decide)
    (by intro j e he
        by_cases hj : j = 2 <;> simp [hj] at he
        subst he
        decide)
  exact ⟨h.1, h.2.1⟩

/-- C10: the initial trigger upserts keyed on phone with status `inicial`,
automation `Ativa` and the given name: re-triggering a phone that already
has a contact row (whatever its status) rewrites every row with that phone
to the initial state, adds no row, and touches no other contact. -/
theorem C10_trigger_resets_contact
    (db : List Contact) (numero nome : String) (tmpl : Except String String)
    (hex : db.any (fun c => c.phone == numero) = true) :
    (disparar_e_registrar_contato_inicial true tmpl db numero nome).1.length
      = db.length ∧
    (∀ c ∈ (disparar_e_registrar_contato_inicial true tmpl db numero nome).1,
       c.phone = numero →
         c.status = "inicial" ∧ c.automationStatus = "Ativa" ∧
         c.name = some nome) ∧
    (∀ c ∈ (disparar_e_registrar_contato_inicial true tmpl db numero nome).1,
       c.phone ≠ numero → c ∈ db) := by
  have h1 : (disparar_e_registrar_contato_inicial true tmpl db numero nome).1
      = upsertContato db numero nome := by
    unfold disparar_e_registrar_contato_inicial
    cases tmpl <;> rfl
  rw [h1]
  unfold upsertContato
  rw [if_pos hex]
  refine ⟨List.length_map _ _, ?_, ?_⟩
  · intro c hc hph
    rcases List.mem_map.mp hc with ⟨a, _, hEq⟩
    by_cases hb : a.phone == numero
    · rw [if_pos hb] at hEq
      rw [← hEq]
      exact ⟨rfl, rfl, rfl⟩
    · rw [if_neg hb] at hEq
      rw [← hEq] at hph
      exact absurd (beq_iff_eq.mpr hph) hb
  · intro c hc hph
    rcases List.mem_map.mp hc with ⟨a, ha, hEq⟩
    by_cases hb : a.phone == numero
    · rw [if_pos hb] at hEq
      rw [← hEq] at hph
      exact absurd (beq_iff_eq.mp hb) hph
    · rw [if_neg hb] at hEq
      exact hEq ▸ ha

/-- C10 witness: re-triggering a concluded contact resets it. -/
theorem C10_trigger_resets_contact_witness :
    (disparar_e_registrar_contato_inicial true (.ok "SID")
       [mkContact "recusou_contato_futuro"] "whatsapp:+5511999999999"
       "Bia").1.length = 1 ∧
    (∀ c ∈ (disparar_e_registrar_contato_inicial true (.ok "SID")
       [mkContact "recusou_contato_futuro"] "whatsapp:+5511999999999"
       "Bia").1,
       c.phone = "whatsapp:+5511999999999" →
         c.status = "inicial" ∧ c.automationStatus = "Ativa" ∧
         c.name = some "Bia") :=
  ⟨(C10_trigger_resets_contact [mkContact "recusou_contato_futuro"]
      "whatsapp:+5511999999999" "Bia" (.ok "SID") (by decide)).1,
   (C10_trigger_resets_contact [mkContact "recusou_contato_futuro"]
      "whatsapp:+5511999999999" "Bia" (.ok "SID") (by decide)).2.1⟩

/-- A guarded `filterMap` is a `map` over a `filter`. -/
theorem filterMap_ite_eq_map_filter {α β : Type} (p : α → Bool) (g : α → β)
    (l : List α) :
    l.filterMap (fun a => if p a then some (g a) else none)
      = (l.filter p).map g := by
  induction l with
  | nil => rfl
  | cons a t ih =>
    by_cases h : p a = true <;>
      simp [List.filterMap_cons, List.filter_cons, h, ih]

/-- C8: Modelled from the spec (§4.5) — the Follow-up Poller is absent
from `src/`.  One run sends exactly one reminder per contact in
`pos_termo` whose term-submission timestamp is at least the reminder delay
old (in table order), moves each such contact to `followup_enviado`, and
an immediately following run at the same instant sends nothing. -/
theorem C8_poller_run (now delay : Nat) (db : List Contact) :
    (pollerRun now delay db).2
      = (db.filter (pollerEligible now delay)).map
          (fun c => ⟨c.phone, mensagemFollowup, none⟩) ∧
    (∀ c ∈ db, pollerEligible now delay c = true →
       ({ c with status := "followup_enviado" } : Contact)
         ∈ (pollerRun now delay db).1) ∧
    (pollerRun now delay (pollerRun now delay db).1).2 = [] := by
  refine ⟨?_, ?_, ?_⟩
  · exact filterMap_ite_eq_map_filter (pollerEligible now delay) _ db
  · intro c hc helig
    simp only [pollerRun]
    have h2 := List.mem_map_of_mem
      (fun c => if pollerEligible now delay c then
         { c with status := "followup_enviado" } else c) hc
    simp only [helig, reduceIte] at h2
    exact h2
  · simp only [pollerRun, List.filterMap_map]
    rw [List.filterMap_eq_nil_iff]
    intro c _
    simp only [Function.comp_apply]
    by_cases h : pollerEligible now delay c = true
    · simp only [h, reduceIte]
      have hb : ((("followup_enviado" : String) == "pos_termo") : Bool)
          = false := by decide
      have helig2 : pollerEligible now delay
          ({ c with status := "followup_enviado" } : Contact) = false := by
        simp only [pollerEligible, hb, Bool.false_and]
      simp only [helig2, Bool.false_eq_true, if_false]
    · rw [Bool.not_eq_true] at h
      simp only [h, Bool.false_eq_true, if_false]

/-- Concrete `pos_termo` contact with a term timestamp, for the C8
witness. -/
def mkContactTermo : Contact :=
  ⟨0, "whatsapp:+5511999999999", some "Ana", "pos_termo", "Ativa", "", 0,
   false, some 2⟩

/-- C8 witness: one eligible contact gets exactly one reminder and a
second immediate run sends nothing. -/
theorem C8_poller_run_witness :
    (pollerRun 10 3 [mkContactTermo]).2
      = ([mkContactTermo].filter (pollerEligible 10 3)).map
          (fun c => ⟨c.phone, mensagemFollowup, none⟩) ∧
    ({ mkContactTermo with status := "followup_enviado" } : Contact)
      ∈ (pollerRun 10 3 [mkContactTermo]).1 ∧
    (pollerRun 10 3 (pollerRun 10 3 [mkContactTermo]).1).2 = [] :=
  ⟨(C8_poller_run 10 3 [mkContactTermo]).1,
   (C8_poller_run 10 3 [mkContactTermo]).2.1 mkContactTermo (by decide)
     (by decide),
   (C8_poller_run 10 3 [mkContactTermo]).2.2⟩

end Chatbot
